/-
  Verification of the knowledge retrieval and augmentation pipeline of the
  AI Knowledge Continuity System.

  The data model follows the TypeScript API types of the frontend
  (frontend/src/types/api.ts, which mirror the backend Pydantic schemas),
  and the two frontend components under verification
  (KnowledgeGapAlert.tsx, useChat.ts) are embedded directly from their
  source.  The backend pipeline itself (chunker, classifier, decision
  parser, vector store manager, retriever, gap detector, suggested-question
  generator) is not part of the available sources, so those components are
  modelled from the specification; each such definition is marked
  "Modelled from the spec".  Numeric scores are modelled as rationals.
-/
import Mathlib

deriving instance DecidableEq for Except

namespace KnowledgeContinuity

/-- Knowledge type enum, from the frontend API types (`KnowledgeType`). -/
inductive KnowledgeType where
  | tacit
  | explicit
  | decision
  | unknown
deriving DecidableEq, Repr

/-- Gap severity enum, from the frontend API types (`GapSeverity`). -/
inductive GapSeverity where
  | low
  | medium
  | high
  | critical
deriving DecidableEq, Repr

/-- Knowledge gap information, from the frontend API types
(`KnowledgeGapInfo`): detection flag, optional severity, confidence score
and optional reason. -/
structure KnowledgeGapInfo where
  detected : Bool
  severity : Option GapSeverity
  confidence_score : Rat
  reason : Option String
deriving DecidableEq, Repr

/-- Query role enum, from the frontend API types (`QueryRole`). -/
inductive QueryRole where
  | developer
  | manager
  | analyst
  | executive
  | general
deriving DecidableEq, Repr

/-- Query request, from the frontend API types (`QueryRequest`). -/
structure QueryRequest where
  question : String
  role : Option QueryRole
  department : Option String
  conversation_id : Option String
  use_knowledge_features : Option Bool
deriving DecidableEq, Repr

/-- Query-time result item, from the frontend API types
(`SourceDocument`). -/
structure SourceDocument where
  source : String
  content_preview : String
  knowledge_type : KnowledgeType
  relevance_score : Option Rat
  decision_id : Option String
  decision_author : Option String
  decision_date : Option String
deriving DecidableEq, Repr

/-- Decision trace, from the frontend API types (`DecisionTrace`): every
field optional except the two lists, which are plain lists. -/
structure DecisionTrace where
  decision_id : Option String
  title : Option String
  author : Option String
  date : Option String
  rationale : Option String
  alternatives : List String
  tradeoffs : List String
deriving DecidableEq, Repr

/-- Query response, the fields of the frontend `QueryResponse` used by the
chat state machinery. -/
structure QueryResponse where
  answer : String
  query : String
  sources : List SourceDocument
  knowledge_gap : KnowledgeGapInfo
  confidence : Rat
  warnings : List String
deriving DecidableEq, Repr

-- ==================== C9: KnowledgeGapAlert component ====================

/-- The rendered gap banner of `KnowledgeGapAlert.tsx`: container style
class, icon kind, heading, body text, displayed confidence percentage and
the optional severity label. -/
structure GapBanner where
  containerClass : String
  icon : String
  heading : String
  body : String
  confidencePct : Rat
  severityLabel : Option GapSeverity
deriving DecidableEq, Repr

/-- Severity styles of `KnowledgeGapAlert.tsx` (`getSeverityStyles`). -/
def getSeverityStyles (severity : Option GapSeverity) : String :=
  match severity with
  | some GapSeverity.critical => "bg-red-50 border-red-300 text-red-900"
  | some GapSeverity.high => "bg-orange-50 border-orange-300 text-orange-900"
  | some GapSeverity.medium => "bg-warning-50 border-warning-300 text-warning-900"
  | _ => "bg-yellow-50 border-yellow-300 text-yellow-900"

/-- Severity icon of `KnowledgeGapAlert.tsx` (`getSeverityIcon`). -/
def getSeverityIcon (severity : Option GapSeverity) : String :=
  if severity = some GapSeverity.critical ∨ severity = some GapSeverity.high then
    "AlertTriangle"
  else
    "Info"

/-- The `KnowledgeGapAlert` component of `KnowledgeGapAlert.tsx`: returns
`none` (the TSX `null`) when no gap is detected, otherwise the rendered
banner. -/
def KnowledgeGapAlert (gapInfo : KnowledgeGapInfo) : Option GapBanner :=
  if gapInfo.detected = false then
    none
  else
    some
      { containerClass := getSeverityStyles gapInfo.severity
        icon := getSeverityIcon gapInfo.severity
        heading := "Knowledge Gap Detected"
        body := gapInfo.reason.getD
          "This knowledge is currently missing or incomplete in the organization."
        confidencePct := gapInfo.confidence_score * 100
        severityLabel := gapInfo.severity }

-- ==================== C10: useChat sendMessage ====================

/-- Chat message, from the frontend API types (`Message`). -/
structure Message where
  id : String
  role : String
  content : String
  timestamp : Nat
  response : Option QueryResponse
  isLoading : Bool
  error : Option String
deriving DecidableEq, Repr

/-- Conversation, from the frontend API types (`Conversation`). -/
structure Conversation where
  id : String
  title : String
  messages : List Message
  created_at : Nat
  updated_at : Nat
deriving DecidableEq, Repr

/-- Chat state managed by the `useChat` hook: the conversation list, the
active conversation id, the loading flag and the error message. -/
structure ChatState where
  conversations : List Conversation
  activeConversationId : Option String
  isLoading : Bool
  error : Option String
deriving DecidableEq, Repr

/-- Result of one `sendMessage` call: the chat state afterwards and the
query request issued to the backend, if any. -/
structure SendMessageResult where
  state : ChatState
  request : Option QueryRequest
deriving DecidableEq, Repr

/-- The `createConversation` action of `useChat.ts`: prepends a fresh
conversation and makes it active. -/
def createConversation (st : ChatState) (freshConvId : String) (now : Nat) :
    ChatState :=
  let newConversation : Conversation :=
    { id := freshConvId
      title := "New Conversation"
      messages := []
      created_at := now
      updated_at := now }
  { st with
      conversations := newConversation :: st.conversations
      activeConversationId := some freshConvId }

/-- JavaScript `String.prototype.trim`: the string with leading and
trailing whitespace removed, modelled over the character list. -/
def trimString (s : String) : String :=
  String.mk
    (((s.data.dropWhile Char.isWhitespace).reverse.dropWhile
        Char.isWhitespace).reverse)

/-- The `sendMessage` action of `useChat.ts`.  Fresh uuids and the clock
are passed explicitly; the backend call is the `api` argument, returning
either a response or an error message.  The first line of the source is
the guard `if (!content.trim()) return;`. -/
def sendMessage (st : ChatState) (content : String) (role : QueryRole)
    (freshConvId userMsgId asstMsgId : String) (now : Nat)
    (api : QueryRequest → Except String QueryResponse) : SendMessageResult :=
  if trimString content = "" then
    { state := st, request := none }
  else
    let stepped :=
      match st.activeConversationId with
      | some cid => (st, cid)
      | none => (createConversation st freshConvId now, freshConvId)
    let st1 := stepped.1
    let conversationId := stepped.2
    let userMessage : Message :=
      { id := userMsgId, role := "user", content := trimString content
        timestamp := now, response := none, isLoading := false, error := none }
    let assistantMessage : Message :=
      { id := asstMsgId, role := "assistant", content := ""
        timestamp := now, response := none, isLoading := true, error := none }
    let st2 :=
      { st1 with
          conversations := st1.conversations.map fun (conv : Conversation) =>
            if conv.id = conversationId then
              { conv with
                  messages := conv.messages ++ [userMessage, assistantMessage]
                  updated_at := now
                  title :=
                    if conv.messages.length = 0 then content.take 50
                    else conv.title }
            else conv
          isLoading := true
          error := none }
    let request : QueryRequest :=
      { question := content
        role := some role
        department := none
        conversation_id := some conversationId
        use_knowledge_features := some true }
    match api request with
    | Except.ok response =>
        { state :=
            { st2 with
                conversations := st2.conversations.map fun (conv : Conversation) =>
                  if conv.id = conversationId then
                    { conv with
                        messages := conv.messages.map fun (msg : Message) =>
                          if msg.id = assistantMessage.id then
                            { msg with
                                content := response.answer
                                response := some response
                                isLoading := false }
                          else msg
                        updated_at := now }
                  else conv
                isLoading := false }
          request := some request }
    | Except.error e =>
        { state :=
            { st2 with
                conversations := st2.conversations.map fun (conv : Conversation) =>
                  if conv.id = conversationId then
                    { conv with
                        messages := conv.messages.map fun (msg : Message) =>
                          if msg.id = assistantMessage.id then
                            { msg with
                                content :=
                                  "Sorry, I encountered an error processing your request."
                                error := some e
                                isLoading := false }
                          else msg }
                  else conv
                error := some e
                isLoading := false }
          request := some request }

-- ==================== Stable descending sort ====================

/-- Stable insertion of `x` into a list kept in descending `key` order:
`x` is placed before the first element with a strictly smaller key, so
elements with equal keys keep their original relative order. -/
def insertDescBy {α : Type} (key : α → Rat) (x : α) : List α → List α
  | [] => [x]
  | y :: ys =>
      if key y ≤ key x then x :: y :: ys else y :: insertDescBy key x ys

/-- Stable insertion sort by descending `key`. -/
def sortDescBy {α : Type} (key : α → Rat) : List α → List α
  | [] => []
  | x :: xs => insertDescBy key x (sortDescBy key xs)

theorem insertDescBy_perm {α : Type} (key : α → Rat) (x : α) (l : List α) :
    List.Perm (insertDescBy key x l) (x :: l) := by
  induction l with
  | nil => simp [insertDescBy]
  | cons y ys ih =>
      by_cases h : key y ≤ key x
      · simp [insertDescBy, h]
      · simp only [insertDescBy, if_neg h]
        exact List.Perm.trans (List.Perm.cons y ih) (List.Perm.swap x y ys)

theorem sortDescBy_perm {α : Type} (key : α → Rat) (l : List α) :
    List.Perm (sortDescBy key l) l := by
  induction l with
  | nil => simp [sortDescBy]
  | cons x xs ih =>
      exact List.Perm.trans (insertDescBy_perm key x (sortDescBy key xs))
        (List.Perm.cons x ih)

theorem mem_sortDescBy {α : Type} {key : α → Rat} {a : α} {l : List α} :
    a ∈ sortDescBy key l ↔ a ∈ l :=
  (sortDescBy_perm key l).mem_iff

theorem insertDescBy_pairwise {α : Type} (key : α → Rat) (x : α) (l : List α)
    (h : List.Pairwise (fun a b => key b ≤ key a) l) :
    List.Pairwise (fun a b => key b ≤ key a) (insertDescBy key x l) := by
  induction l with
  | nil => simp [insertDescBy]
  | cons y ys ih =>
      by_cases hyx : key y ≤ key x
      · simp only [insertDescBy, if_pos hyx]
        refine List.Pairwise.cons ?_ h
        intro z hz
        rcases List.mem_cons.mp hz with hz1 | hz1
        · subst hz1
          exact hyx
        · exact le_trans (List.rel_of_pairwise_cons h hz1) hyx
      · simp only [insertDescBy, if_neg hyx]
        refine List.Pairwise.cons ?_ (ih h.of_cons)
        intro z hz
        have hz2 := (insertDescBy_perm key x ys).mem_iff.mp hz
        rcases List.mem_cons.mp hz2 with hz3 | hz3
        · subst hz3
          exact le_of_lt (lt_of_not_le hyx)
        · exact List.rel_of_pairwise_cons h hz3

theorem sortDescBy_pairwise {α : Type} (key : α → Rat) (l : List α) :
    List.Pairwise (fun a b => key b ≤ key a) (sortDescBy key l) := by
  induction l with
  | nil => simp [sortDescBy]
  | cons x xs ih => exact insertDescBy_pairwise key x (sortDescBy key xs) ih

-- ==================== Embedding & Vector Index Manager ====================

/-- Error taxonomy of the pipeline (spec section 7). -/
inductive PipelineError where
  | configurationError
  | dimensionMismatchError
  | ingestError
  | indexUnavailableError
deriving DecidableEq, Repr

/-- A chunk of a document: owning document id, order within the document,
text and knowledge type. -/
structure Chunk where
  doc_id : Nat
  chunk_id : Nat
  text : String
  knowledge_type : KnowledgeType
deriving DecidableEq, Repr

/-- An indexed embedding: the owning document and chunk, the vector and
the chunk's knowledge type. -/
structure IndexEntry where
  doc_id : Nat
  chunk_id : Nat
  vector : List Rat
  knowledge_type : KnowledgeType
deriving DecidableEq, Repr

/-- An embedding model endpoint: identifier, output dimensionality and the
embedding function itself. -/
structure EmbeddingModel where
  model_id : String
  dimension : Nat
  embed : String → List Rat

/-- Modelled from the spec: the searchable vector index owned by the
missing backend `VectorStoreManager`; it carries its declared model
identifier and dimensionality as index-level metadata next to the stored
embeddings. -/
structure VectorIndex where
  model_id : String
  dimension : Nat
  entries : List IndexEntry
deriving DecidableEq, Repr

/-- Modelled from the spec: the persisted form of the index (binary file
with a model-id and dimension header followed by the vectors); the missing
backend persistence layer is modelled as a faithful record of the same
data. -/
structure StoredIndex where
  model_id : String
  dimension : Nat
  entries : List IndexEntry
deriving DecidableEq, Repr

/-- Modelled from the spec: building an index from a batch of chunks with
the missing backend `VectorStoreManager`; the manager records the
embedding model identifier and output dimensionality at creation time and
embeds every chunk with that model. -/
def buildIndex (m : EmbeddingModel) (chunks : List Chunk) : VectorIndex :=
  { model_id := m.model_id
    dimension := m.dimension
    entries := chunks.map fun c =>
      { doc_id := c.doc_id
        chunk_id := c.chunk_id
        vector := m.embed c.text
        knowledge_type := c.knowledge_type } }

/-- Modelled from the spec: persisting the index writes the model id and
dimension header together with the vectors. -/
def saveIndex (idx : VectorIndex) : StoredIndex :=
  { model_id := idx.model_id, dimension := idx.dimension, entries := idx.entries }

/-- Modelled from the spec: `VectorStoreManager.load` of the missing
backend validates the on-disk declared model identifier and dimensionality
against the configured embedding model before accepting any queries, and
refuses to serve search if they disagree. -/
def loadIndex (cfg : EmbeddingModel) (s : StoredIndex) :
    Except PipelineError VectorIndex :=
  if s.model_id = cfg.model_id ∧ s.dimension = cfg.dimension then
    Except.ok { model_id := s.model_id, dimension := s.dimension, entries := s.entries }
  else
    Except.error PipelineError.dimensionMismatchError

/-- Raw similarity of two vectors (inner product). -/
def similarity (u v : List Rat) : Rat :=
  (List.zipWith (fun a b => a * b) u v).sum

/-- One search hit: the index entry with its raw similarity score. -/
structure SearchResult where
  entry : IndexEntry
  score : Rat
deriving DecidableEq, Repr

/-- Modelled from the spec: `VectorStoreManager.search` of the missing
backend.  A query vector whose declared embedding model or dimensionality
differs from the index's recorded pair fails fast with
`DimensionMismatchError`; otherwise the k nearest entries by raw
similarity are returned, in descending score order. -/
def search (idx : VectorIndex) (query_model : String) (query_vector : List Rat)
    (k : Nat) : Except PipelineError (List SearchResult) :=
  if query_model = idx.model_id ∧ query_vector.length = idx.dimension then
    Except.ok
      ((sortDescBy (fun r => r.score)
        (idx.entries.map fun e =>
          { entry := e, score := similarity query_vector e.vector })).take k)
  else
    Except.error PipelineError.dimensionMismatchError

/-- Modelled from the spec: deleting a document removes all of its chunks
from the index before the next search (cascade delete of derived
embeddings). -/
def deleteDocument (idx : VectorIndex) (doc_id : Nat) : VectorIndex :=
  { model_id := idx.model_id
    dimension := idx.dimension
    entries := idx.entries.filter fun e => e.doc_id != doc_id }

/-- Every hit returned by a successful search is one of the index's
entries. -/
theorem search_result_mem {idx : VectorIndex} {qm : String} {qv : List Rat}
    {k : Nat} {res : List SearchResult} {r : SearchResult}
    (hok : search idx qm qv k = Except.ok res) (hr : r ∈ res) :
    r.entry ∈ idx.entries := by
  by_cases hc : qm = idx.model_id ∧ qv.length = idx.dimension
  · simp only [search, if_pos hc, Except.ok.injEq] at hok
    subst hok
    have h1 : r ∈ sortDescBy (fun r => r.score)
        (idx.entries.map fun e =>
          { entry := e, score := similarity qv e.vector }) :=
      List.take_subset k _ hr
    have h2 := mem_sortDescBy.mp h1
    rcases List.mem_map.mp h2 with ⟨e, he, heq⟩
    rw [← heq]
    exact he
  · simp [search, if_neg hc] at hok

-- ==================== Gap Detector ====================

/-- Modelled from the spec: the confidence aggregate of the missing
backend gap detector — the mean of the raw similarity scores, clamped to
`[0, 1]`; an empty score list is the lowest-confidence case `0`. -/
def computeConfidence (scores : List Rat) : Rat :=
  match scores with
  | [] => 0
  | _ => max 0 (min 1 (scores.sum / scores.length))

/-- Modelled from the spec: the severity band ladder of the missing
backend gap detector — near-threshold misses are low or medium, very low
confidence is high or critical. -/
def severityFor (confidence : Rat) : GapSeverity :=
  if confidence < 1 / 5 then GapSeverity.critical
  else if confidence < 2 / 5 then GapSeverity.high
  else if confidence < 1 / 2 then GapSeverity.medium
  else GapSeverity.low

/-- Modelled from the spec: the missing backend gap detector.  It runs
even when similarity search returned zero results: an empty score list is
a detected gap with `critical` severity and confidence `0`, never an
error; otherwise a gap is detected exactly when the aggregate confidence
falls below the threshold. -/
def detectGap (threshold : Rat) (queryText : String) (scores : List Rat) :
    KnowledgeGapInfo :=
  if scores.isEmpty then
    { detected := true
      severity := some GapSeverity.critical
      confidence_score := 0
      reason := some ("No relevant knowledge found for: " ++ queryText) }
  else
    let conf := computeConfidence scores
    if conf < threshold then
      { detected := true
        severity := some (severityFor conf)
        confidence_score := conf
        reason := some ("Low confidence answer for: " ++ queryText) }
    else
      { detected := false
        severity := none
        confidence_score := conf
        reason := none }

/-- Outcome of the query path: retrieved sources, the gap verdict and the
confidence value. -/
structure QueryOutcome where
  sources : List SearchResult
  knowledge_gap : KnowledgeGapInfo
  confidence : Rat
deriving DecidableEq, Repr

/-- Modelled from the spec: the missing backend query path — embed the
question with the configured model, search the index, then run gap
detection on the raw similarity scores of the results. -/
def runQuery (m : EmbeddingModel) (idx : VectorIndex) (question : String)
    (k : Nat) (threshold : Rat) : Except PipelineError QueryOutcome :=
  match search idx m.model_id (m.embed question) k with
  | Except.error e => Except.error e
  | Except.ok results =>
      let gap := detectGap threshold question (results.map fun r => r.score)
      Except.ok
        { sources := results
          knowledge_gap := gap
          confidence := gap.confidence_score }

-- ==================== Theorems for C9 and C10 ====================

/-- Claim C9: for every `KnowledgeGapInfo` value with `detected = false`, the
`KnowledgeGapAlert` component renders nothing (returns `null`) regardless
of its severity or confidence fields; a banner is rendered only when
`detected = true`. -/
theorem knowledgeGapAlert_detected_false_renders_nothing :
    ∀ gapInfo : KnowledgeGapInfo, gapInfo.detected = false →
      KnowledgeGapAlert gapInfo = none := by
  intro gapInfo h
  simp [KnowledgeGapAlert, h]

/-- Witness for C9 at a concrete undetected gap carrying a critical
severity and a nonzero confidence score. -/
theorem knowledgeGapAlert_detected_false_renders_nothing_witness :
    KnowledgeGapAlert
      { detected := false
        severity := some GapSeverity.critical
        confidence_score := (9 : Rat) / 10
        reason := some "missing" } = none :=
  knowledgeGapAlert_detected_false_renders_nothing
    { detected := false
      severity := some GapSeverity.critical
      confidence_score := (9 : Rat) / 10
      reason := some "missing" } rfl

/-- Claim C10: for every input whose trimmed content is empty, `sendMessage`
returns immediately: the chat state is returned unchanged (no conversation
created, no message appended, loading and error untouched) and no query
request is issued. -/
theorem sendMessage_blank_input_no_effect :
    ∀ (st : ChatState) (content : String) (role : QueryRole)
      (freshConvId userMsgId asstMsgId : String) (now : Nat)
      (api : QueryRequest → Except String QueryResponse),
      trimString content = "" →
      sendMessage st content role freshConvId userMsgId asstMsgId now api =
        { state := st, request := none } := by
  intro st content role freshConvId userMsgId asstMsgId now api h
  simp [sendMessage, h]

/-- Witness for C10: a whitespace-only input leaves a concrete nonempty
chat state untouched and issues no request. -/
theorem sendMessage_blank_input_no_effect_witness :
    trimString ("  \n " : String) = "" ∧
      sendMessage
        { conversations := []
          activeConversationId := none
          isLoading := false
          error := none }
        "  \n " QueryRole.general "c1" "m1" "m2" 0
        (fun _ => Except.error "backend down") =
        { state :=
            { conversations := []
              activeConversationId := none
              isLoading := false
              error := none }
          request := none } :=
  ⟨by decide,
    sendMessage_blank_input_no_effect
      { conversations := []
        activeConversationId := none
        isLoading := false
        error := none }
      "  \n " QueryRole.general "c1" "m1" "m2" 0
      (fun _ => Except.error "backend down") (by decide)⟩

-- ==================== Fixtures for witnesses ====================

/-- A concrete embedding model used by witnesses: two dimensions, constant
embedding. -/
def miniLM : EmbeddingModel :=
  { model_id := "sentence-transformers/all-MiniLM-L6-v2"
    dimension := 2
    embed := fun _ => [1, 0] }

/-- A concrete two-document index used by witnesses. -/
def sampleIndex : VectorIndex :=
  { model_id := "sentence-transformers/all-MiniLM-L6-v2"
    dimension := 1
    entries :=
      [ { doc_id := 1, chunk_id := 0, vector := [1], knowledge_type := KnowledgeType.explicit }
      , { doc_id := 2, chunk_id := 1, vector := [2], knowledge_type := KnowledgeType.decision } ] }

-- ==================== Theorems for C1, C2, C6 ====================

/-- Claim C1: an index built and then loaded reports exactly the `(model_id,
dimension)` pair recorded at build time, and any search whose query
declares a different embedding model or a different dimensionality fails
with `DimensionMismatchError` and returns no results. -/
theorem index_dimension_model_binding :
    (∀ (m : EmbeddingModel) (chunks : List Chunk),
        (buildIndex m chunks).model_id = m.model_id ∧
        (buildIndex m chunks).dimension = m.dimension ∧
        loadIndex m (saveIndex (buildIndex m chunks)) =
          Except.ok (buildIndex m chunks)) ∧
    ∀ (idx : VectorIndex) (qm : String) (qv : List Rat) (k : Nat),
      (qm ≠ idx.model_id ∨ qv.length ≠ idx.dimension) →
      search idx qm qv k = Except.error PipelineError.dimensionMismatchError := by
  constructor
  · intro m chunks
    refine ⟨rfl, rfl, ?_⟩
    simp [loadIndex, saveIndex, buildIndex]
  · intro idx qm qv k h
    have hc : ¬(qm = idx.model_id ∧ qv.length = idx.dimension) := by
      intro hc
      rcases h with h | h
      · exact h hc.1
      · exact h hc.2
    simp [search, if_neg hc]

/-- Witness for C1: a query declaring a Gemini model against a MiniLM
index fails with a dimension mismatch. -/
theorem index_dimension_model_binding_witness :
    (("models/embedding-001" : String) ≠ (buildIndex miniLM []).model_id ∨
        ([(1 : Rat)] : List Rat).length ≠ (buildIndex miniLM []).dimension) ∧
      search (buildIndex miniLM []) "models/embedding-001" [(1 : Rat)] 5 =
        Except.error PipelineError.dimensionMismatchError :=
  ⟨Or.inl (by decide),
    index_dimension_model_binding.2 (buildIndex miniLM [])
      "models/embedding-001" [(1 : Rat)] 5 (Or.inl (by decide))⟩

/-- Claim C2: a query against an empty index completes as a successful response
whose knowledge gap is detected, carries `critical` severity, and has
confidence exactly `0`. -/
theorem empty_index_query_detects_critical_gap :
    ∀ (m : EmbeddingModel) (idx : VectorIndex) (question : String) (k : Nat)
      (threshold : Rat),
      idx.entries = [] →
      m.model_id = idx.model_id →
      (m.embed question).length = idx.dimension →
      ∃ outcome : QueryOutcome,
        runQuery m idx question k threshold = Except.ok outcome ∧
        outcome.knowledge_gap.detected = true ∧
        outcome.knowledge_gap.severity = some GapSeverity.critical ∧
        outcome.knowledge_gap.confidence_score = 0 := by
  intro m idx question k threshold hentries hmodel hlen
  refine ⟨{ sources := []
            knowledge_gap :=
              { detected := true
                severity := some GapSeverity.critical
                confidence_score := 0
                reason := some ("No relevant knowledge found for: " ++ question) }
            confidence := 0 }, ?_, rfl, rfl, rfl⟩
  simp [runQuery, search, hmodel, hlen, hentries, sortDescBy, detectGap]

/-- Witness for C2 at a concrete empty index. -/
theorem empty_index_query_detects_critical_gap_witness :
    ((buildIndex miniLM []).entries = [] ∧
        miniLM.model_id = (buildIndex miniLM []).model_id ∧
        (miniLM.embed "What is the architecture?").length =
          (buildIndex miniLM []).dimension) ∧
      ∃ outcome : QueryOutcome,
        runQuery miniLM (buildIndex miniLM [])
            "What is the architecture?" 5 (3 / 5) = Except.ok outcome ∧
        outcome.knowledge_gap.detected = true ∧
        outcome.knowledge_gap.severity = some GapSeverity.critical ∧
        outcome.knowledge_gap.confidence_score = 0 :=
  ⟨⟨rfl, rfl, by decide⟩,
    empty_index_query_detects_critical_gap miniLM (buildIndex miniLM [])
      "What is the architecture?" 5 (3 / 5) rfl rfl (by decide)⟩

/-- Claim C6: after a document is deleted, no search ever returns one of its
chunks — every hit of any subsequent successful search belongs to a
different document. -/
theorem deleted_document_absent_from_search :
    ∀ (idx : VectorIndex) (doc : Nat) (qm : String) (qv : List Rat) (k : Nat)
      (res : List SearchResult) (r : SearchResult),
      search (deleteDocument idx doc) qm qv k = Except.ok res →
      r ∈ res →
      r.entry.doc_id ≠ doc := by
  intro idx doc qm qv k res r hok hr
  have hmem : r.entry ∈ (deleteDocument idx doc).entries :=
    search_result_mem hok hr
  have hfilter := List.of_mem_filter hmem
  simpa using hfilter

/-- Witness for C6: deleting document 1 from the sample index and
searching returns only document 2's chunk, whose id differs from 1. -/
theorem deleted_document_absent_from_search_witness :
    search (deleteDocument sampleIndex 1)
        "sentence-transformers/all-MiniLM-L6-v2" [(1 : Rat)] 5 =
      Except.ok
        [{ entry :=
            { doc_id := 2, chunk_id := 1, vector := [2]
              knowledge_type := KnowledgeType.decision }
           score := 2 }] ∧
      ({ entry :=
          { doc_id := 2, chunk_id := 1, vector := [2]
            knowledge_type := KnowledgeType.decision }
         score := 2 } : SearchResult).entry.doc_id ≠ 1 :=
  ⟨by norm_num [search, deleteDocument, sampleIndex, sortDescBy, insertDescBy,
      similarity],
    deleted_document_absent_from_search sampleIndex 1
      "sentence-transformers/all-MiniLM-L6-v2" [(1 : Rat)] 5
      [{ entry :=
          { doc_id := 2, chunk_id := 1, vector := [2]
            knowledge_type := KnowledgeType.decision }
         score := 2 }]
      { entry :=
          { doc_id := 2, chunk_id := 1, vector := [2]
            knowledge_type := KnowledgeType.decision }
        score := 2 }
      (by norm_num [search, deleteDocument, sampleIndex, sortDescBy, insertDescBy,
        similarity]) (by decide)⟩

-- ==================== Knowledge-Aware Retriever ====================

/-- Boost factors keyed on knowledge type (spec section 4.5: tacit and
decision types receive a boost above 1). -/
structure BoostConfig where
  tacit : Rat
  decision : Rat
  explicit : Rat
  unknown : Rat
deriving DecidableEq, Repr

/-- The boost factor of one knowledge type under a configuration. -/
def boostFactor (cfg : BoostConfig) : KnowledgeType → Rat
  | KnowledgeType.tacit => cfg.tacit
  | KnowledgeType.decision => cfg.decision
  | KnowledgeType.explicit => cfg.explicit
  | KnowledgeType.unknown => cfg.unknown

/-- A retrieval candidate before re-ranking: chunk id, knowledge type and
raw similarity score, listed in original similarity rank order. -/
structure Candidate where
  chunk_id : Nat
  knowledge_type : KnowledgeType
  raw_score : Rat
deriving DecidableEq, Repr

/-- A re-ranked result retaining both the candidate (with its raw score)
and the boosted score. -/
structure RankedResult where
  candidate : Candidate
  boosted_score : Rat
deriving DecidableEq, Repr

/-- Modelled from the spec: the re-ranking step of the missing backend
knowledge-aware retriever — multiply each candidate's raw similarity
score by the boost factor of its knowledge type, sort by boosted score
descending with a stable sort (ties keep the original similarity rank),
and truncate to the final k. -/
def rerank (cfg : BoostConfig) (k : Nat) (candidates : List Candidate) :
    List RankedResult :=
  (sortDescBy (fun (r : RankedResult) => r.boosted_score)
    (candidates.map fun c =>
      { candidate := c
        boosted_score := c.raw_score * boostFactor cfg c.knowledge_type })).take k

/-- Every re-ranked result's boosted score is its raw score times the
boost factor of its knowledge type. -/
theorem rerank_boosted_eq (cfg : BoostConfig) (k : Nat)
    (candidates : List Candidate) :
    ∀ r ∈ rerank cfg k candidates,
      r.boosted_score =
        r.candidate.raw_score * boostFactor cfg r.candidate.knowledge_type := by
  intro r hr
  have h1 : r ∈ sortDescBy (fun (r : RankedResult) => r.boosted_score)
      (candidates.map fun c =>
        { candidate := c
          boosted_score := c.raw_score * boostFactor cfg c.knowledge_type }) :=
    List.take_subset k _ hr
  rcases List.mem_map.mp (mem_sortDescBy.mp h1) with ⟨c, _, heq⟩
  rw [← heq]

/-- The re-ranked list is in descending boosted-score order. -/
theorem rerank_sorted (cfg : BoostConfig) (k : Nat)
    (candidates : List Candidate) :
    List.Pairwise (fun a b => b.boosted_score ≤ a.boosted_score)
      (rerank cfg k candidates) :=
  List.Pairwise.sublist (List.take_sublist k _)
    (sortDescBy_pairwise (fun (r : RankedResult) => r.boosted_score) _)

/-- Fixture: boost factors with decision above explicit. -/
def boostCfg : BoostConfig :=
  { tacit := 6 / 5, decision := 3 / 2, explicit := 1, unknown := 1 }

/-- Fixture: an explicit candidate listed before a decision candidate,
both with raw similarity `0`. -/
def tieCandidates : List Candidate :=
  [ { chunk_id := 1, knowledge_type := KnowledgeType.explicit, raw_score := 0 }
  , { chunk_id := 2, knowledge_type := KnowledgeType.decision, raw_score := 0 } ]

/-- Counterexample for C3: with equal raw similarity `0`, the boost has no
effect (both boosted scores are `0`), so the stable sort keeps the
original order and the decision candidate is ranked after the explicit
one, although the decision boost exceeds the explicit boost — refuting
the claim for arbitrary equal raw similarity. -/
theorem rerank_zero_similarity_counterexample :
    boostFactor boostCfg KnowledgeType.explicit <
        boostFactor boostCfg KnowledgeType.decision ∧
      rerank boostCfg 2 tieCandidates =
        [ { candidate :=
              { chunk_id := 1, knowledge_type := KnowledgeType.explicit
                raw_score := 0 }
            boosted_score := 0 }
        , { candidate :=
              { chunk_id := 2, knowledge_type := KnowledgeType.decision
                raw_score := 0 }
            boosted_score := 0 } ] := by
  constructor
  · norm_num [boostFactor, boostCfg]
  · norm_num [rerank, sortDescBy, insertDescBy, boostFactor, boostCfg,
      tieCandidates]

/-- Claim C3 as amended: re-ranking multiplies each raw score by the knowledge
type's boost factor and sorts descending by boosted score with stable
ties; in particular, whenever a decision candidate and an explicit
candidate share the same strictly positive raw similarity and the decision
boost exceeds the explicit boost, the decision candidate appears strictly
before the explicit one in the re-ranked output. -/
theorem rerank_decision_before_explicit :
    ∀ (cfg : BoostConfig) (k : Nat) (candidates : List Candidate)
      (i j : Nat)
      (hi : i < (rerank cfg k candidates).length)
      (hj : j < (rerank cfg k candidates).length),
      (rerank cfg k candidates)[i].candidate.knowledge_type =
          KnowledgeType.decision →
      (rerank cfg k candidates)[j].candidate.knowledge_type =
          KnowledgeType.explicit →
      (rerank cfg k candidates)[i].candidate.raw_score =
          (rerank cfg k candidates)[j].candidate.raw_score →
      0 < (rerank cfg k candidates)[i].candidate.raw_score →
      cfg.explicit < cfg.decision →
      i < j := by
  intro cfg k candidates i j hi hj hdec hexp hraw hpos hboost
  have hdmem : (rerank cfg k candidates)[i] ∈ rerank cfg k candidates :=
    List.getElem_mem hi
  have hemem : (rerank cfg k candidates)[j] ∈ rerank cfg k candidates :=
    List.getElem_mem hj
  have hdb := rerank_boosted_eq cfg k candidates _ hdmem
  have heb := rerank_boosted_eq cfg k candidates _ hemem
  rw [hdec] at hdb
  rw [hexp] at heb
  have hlt : (rerank cfg k candidates)[j].boosted_score <
      (rerank cfg k candidates)[i].boosted_score := by
    rw [hdb, heb, ← hraw, boostFactor, boostFactor]
    exact mul_lt_mul_of_pos_left hboost hpos
  rcases Nat.lt_trichotomy i j with h | h | h
  · exact h
  · exfalso
    subst h
    exact KnowledgeType.noConfusion (hdec.symm.trans hexp)
  · exfalso
    have hle := (List.pairwise_iff_getElem.mp
      (rerank_sorted cfg k candidates)) j i hj hi h
    exact absurd hle (not_le_of_lt hlt)

/-- Fixture: an explicit candidate listed before a decision candidate,
both with raw similarity `1/2`. -/
def posCandidates : List Candidate :=
  [ { chunk_id := 1, knowledge_type := KnowledgeType.explicit, raw_score := 1 / 2 }
  , { chunk_id := 2, knowledge_type := KnowledgeType.decision, raw_score := 1 / 2 } ]

/-- Witness for the amended C3: with equal positive raw similarity `1/2`
the decision candidate is placed at position 0, before the explicit one at
position 1. -/
theorem rerank_decision_before_explicit_witness :
    (rerank boostCfg 2 posCandidates).length = 2 ∧ (0 : Nat) < 1 :=
  ⟨by norm_num [rerank, sortDescBy, insertDescBy, boostFactor, boostCfg,
      posCandidates],
    rerank_decision_before_explicit boostCfg 2 posCandidates 0 1
      (by norm_num [rerank, sortDescBy, insertDescBy, boostFactor, boostCfg,
        posCandidates])
      (by norm_num [rerank, sortDescBy, insertDescBy, boostFactor, boostCfg,
        posCandidates])
      (by norm_num [rerank, sortDescBy, insertDescBy, boostFactor, boostCfg,
        posCandidates])
      (by norm_num [rerank, sortDescBy, insertDescBy, boostFactor, boostCfg,
        posCandidates])
      (by norm_num [rerank, sortDescBy, insertDescBy, boostFactor, boostCfg,
        posCandidates])
      (by norm_num [rerank, sortDescBy, insertDescBy, boostFactor, boostCfg,
        posCandidates])
      (by norm_num [boostCfg])⟩

-- ==================== Chunker ====================

/-- Modelled from the spec: the chunking loop of the missing backend
chunker.  Each step emits a window of `size` characters and advances by
`step` characters; when the remaining text fits in one chunk it is emitted
whole (so a document shorter than one chunk yields exactly one chunk).
The loop runs at most `fuel` steps; since every step strictly shortens the
text, a fuel of the text length is always sufficient. -/
def chunkGo (size step : Nat) : Nat → List Char → List (List Char)
  | 0, text => [text]
  | fuel + 1, text =>
      if text.length ≤ size ∨ step = 0 then [text]
      else text.take size :: chunkGo size step fuel (text.drop step)

/-- Modelled from the spec: the missing backend chunker — splits a text
into chunks of `chunk_size` characters where adjacent chunks share
`overlap` characters (the step is `chunk_size - overlap`); configurations
with `chunk_size ≤ overlap` fail with `ConfigurationError`. -/
def chunkDocument (chunk_size overlap : Nat) (text : List Char) :
    Except PipelineError (List (List Char)) :=
  if chunk_size ≤ overlap then
    Except.error PipelineError.configurationError
  else
    Except.ok (chunkGo chunk_size (chunk_size - overlap) text.length text)

/-- Concatenation of a chunk list with the overlapping regions removed:
the first chunk whole, every later chunk without its first `overlap`
characters. -/
def reconstruct (overlap : Nat) : List (List Char) → List Char
  | [] => []
  | c :: cs => c ++ (cs.map (List.drop overlap)).flatten

theorem chunkGo_flatten_drop (size step overlap : Nat)
    (hsum : overlap + step = size) :
    ∀ (fuel : Nat) (text : List Char), text.length ≤ fuel →
      ((chunkGo size step fuel text).map (List.drop overlap)).flatten =
        text.drop overlap := by
  intro fuel
  induction fuel with
  | zero =>
      intro text hlen
      have htext : text = [] := List.length_eq_zero.mp (Nat.le_zero.mp hlen)
      subst htext
      simp [chunkGo]
  | succ fuel ih =>
      intro text hlen
      by_cases h : text.length ≤ size ∨ step = 0
      · simp [chunkGo, if_pos h]
      · simp only [chunkGo, if_neg h, List.map_cons, List.flatten_cons]
        have hrec : (text.drop step).length ≤ fuel := by
          rw [List.length_drop]
          omega
        rw [ih (text.drop step) hrec]
        rw [List.drop_take, List.drop_drop]
        have h1 : size - overlap = step := by omega
        have h2 : step + overlap = size := by omega
        rw [h1, h2]
        have h3 : List.drop size text = List.drop step (List.drop overlap text) := by
          rw [List.drop_drop]
          have : overlap + step = size := hsum
          rw [this]
        rw [h3, List.take_append_drop]

/-- Claim C4: for every chunk configuration with `chunk_size > overlap` and
every document text, concatenating the chunker's output with the
overlapping regions removed reconstructs the original text exactly. -/
theorem chunker_round_trip :
    ∀ (chunk_size overlap : Nat) (text : List Char)
      (chunks : List (List Char)),
      overlap < chunk_size →
      chunkDocument chunk_size overlap text = Except.ok chunks →
      reconstruct overlap chunks = text := by
  intro size overlap text chunks hlt hok
  simp only [chunkDocument, if_neg (not_le_of_lt hlt), Except.ok.injEq] at hok
  subst hok
  cases text with
  | nil => simp [chunkGo, reconstruct]
  | cons c rest =>
      simp only [List.length_cons, chunkGo]
      by_cases h : rest.length + 1 ≤ size ∨ size - overlap = 0
      · rw [if_pos h]
        simp [reconstruct]
      · rw [if_neg h]
        simp only [reconstruct]
        have hlen : (c :: rest).length = rest.length + 1 := by simp
        have hrec : ((c :: rest).drop (size - overlap)).length ≤ rest.length := by
          rw [List.length_drop]
          omega
        rw [chunkGo_flatten_drop size (size - overlap) overlap (by omega)
          rest.length ((c :: rest).drop (size - overlap)) hrec]
        rw [List.drop_drop]
        have h2 : size - overlap + overlap = size := by omega
        rw [h2, List.take_append_drop]

/-- Witness for C4: chunk size 5 with overlap 2 over `abcdefgh` yields
`abcde`/`defgh`, and removing the 2-character overlap reconstructs the
text. -/
theorem chunker_round_trip_witness :
    (2 < 5 ∧
      chunkDocument 5 2 ("abcdefgh".data) =
        Except.ok ["abcde".data, "defgh".data]) ∧
      reconstruct 2 ["abcde".data, "defgh".data] = "abcdefgh".data :=
  ⟨⟨by decide, by decide⟩,
    chunker_round_trip 5 2 ("abcdefgh".data) ["abcde".data, "defgh".data]
      (by decide) (by decide)⟩

-- ==================== Knowledge Classifier ====================

/-- Number of occurrences of a nonempty pattern in a text, counted over
every starting position. -/
def countOccur (pat text : List Char) : Nat :=
  ((List.range (text.length + 1)).filter
    (fun i => pat.isPrefixOf (text.drop i) && !pat.isEmpty)).length

/-- A weighted signal phrase of the classifier. -/
structure Signal where
  phrase : String
  weight : Rat
deriving DecidableEq, Repr

/-- Modelled from the spec: the configuration of the missing backend
knowledge classifier — per-type keyword/phrase signal sets and the
minimum score threshold. -/
structure ClassifierConfig where
  tacitSignals : List Signal
  decisionSignals : List Signal
  explicitSignals : List Signal
  threshold : Rat
deriving DecidableEq, Repr

/-- Modelled from the spec: the score of one signal set on a text — the
weighted count of signal hits normalized by the text length. -/
def signalScore (signals : List Signal) (text : String) : Rat :=
  (signals.map fun s =>
    s.weight * (countOccur s.phrase.data text.data : Rat)).sum /
    ((max text.data.length 1 : Nat) : Rat)

/-- Modelled from the spec: the missing backend knowledge classifier.
The type with the highest normalized signal score at or above the minimum
threshold wins; when no type clears the threshold the label is `unknown`;
ties at the top are broken by the fixed priority decision > tacit >
explicit. -/
def classify (cfg : ClassifierConfig) (text : String) : KnowledgeType :=
  let sd := signalScore cfg.decisionSignals text
  let st := signalScore cfg.tacitSignals text
  let se := signalScore cfg.explicitSignals text
  let m := max sd (max st se)
  if m < cfg.threshold then KnowledgeType.unknown
  else if sd = m then KnowledgeType.decision
  else if st = m then KnowledgeType.tacit
  else KnowledgeType.explicit

/-- Claim C5: the classifier is total and deterministic — every document gets
exactly one of the four labels; the label is `unknown` exactly when no
type's score clears the threshold; otherwise the type with the highest
qualifying score wins, with ties broken by the priority decision > tacit
> explicit. -/
theorem classifier_total_highest_priority :
    ∀ (cfg : ClassifierConfig) (text : String),
      (classify cfg text = KnowledgeType.decision ∨
        classify cfg text = KnowledgeType.tacit ∨
        classify cfg text = KnowledgeType.explicit ∨
        classify cfg text = KnowledgeType.unknown) ∧
      (classify cfg text = KnowledgeType.unknown ↔
        max (signalScore cfg.decisionSignals text)
          (max (signalScore cfg.tacitSignals text)
            (signalScore cfg.explicitSignals text)) < cfg.threshold) ∧
      (cfg.threshold ≤ signalScore cfg.decisionSignals text →
        signalScore cfg.tacitSignals text ≤ signalScore cfg.decisionSignals text →
        signalScore cfg.explicitSignals text ≤ signalScore cfg.decisionSignals text →
        classify cfg text = KnowledgeType.decision) ∧
      (cfg.threshold ≤ signalScore cfg.tacitSignals text →
        signalScore cfg.decisionSignals text < signalScore cfg.tacitSignals text →
        signalScore cfg.explicitSignals text ≤ signalScore cfg.tacitSignals text →
        classify cfg text = KnowledgeType.tacit) ∧
      (cfg.threshold ≤ signalScore cfg.explicitSignals text →
        signalScore cfg.decisionSignals text < signalScore cfg.explicitSignals text →
        signalScore cfg.tacitSignals text < signalScore cfg.explicitSignals text →
        classify cfg text = KnowledgeType.explicit) := by
  intro cfg text
  refine ⟨?_, ?_, ?_, ?_, ?_⟩
  · simp only [classify]
    split_ifs <;> simp
  · simp only [classify]
    split_ifs with h1 h2 h3
    · simp [h1]
    · simp [h1]
    · simp [h1]
    · simp [h1]
  · intro h1 h2 h3
    have hm : max (signalScore cfg.decisionSignals text)
        (max (signalScore cfg.tacitSignals text)
          (signalScore cfg.explicitSignals text)) =
        signalScore cfg.decisionSignals text :=
      max_eq_left (max_le h2 h3)
    simp only [classify, hm]
    rw [if_neg (not_lt.mpr h1)]
    simp
  · intro h1 h2 h3
    have hm : max (signalScore cfg.decisionSignals text)
        (max (signalScore cfg.tacitSignals text)
          (signalScore cfg.explicitSignals text)) =
        signalScore cfg.tacitSignals text := by
      rw [max_eq_left h3]
      exact max_eq_right (le_of_lt h2)
    simp only [classify, hm]
    rw [if_neg (not_lt.mpr h1), if_neg (ne_of_lt h2)]
    simp
  · intro h1 h2 h3
    have hm : max (signalScore cfg.decisionSignals text)
        (max (signalScore cfg.tacitSignals text)
          (signalScore cfg.explicitSignals text)) =
        signalScore cfg.explicitSignals text := by
      rw [max_eq_right (le_of_lt h3)]
      exact max_eq_right (le_of_lt h2)
    simp only [classify, hm]
    rw [if_neg (not_lt.mpr h1), if_neg (ne_of_lt h2), if_neg (ne_of_lt h3)]

/-- Fixture: a small classifier configuration in the spirit of the spec's
signal sets. -/
def sampleClassifier : ClassifierConfig :=
  { tacitSignals := [{ phrase := "lesson learned", weight := 1 }]
    decisionSignals :=
      [{ phrase := "decision", weight := 1 }, { phrase := "rationale", weight := 1 }]
    explicitSignals := [{ phrase := "how to", weight := 1 }]
    threshold := 1 / 100 }

/-- Witness for C5 at a concrete document holding two decision signals
and no tacit or explicit ones, classified `decision`. -/
theorem classifier_total_highest_priority_witness :
    (sampleClassifier.threshold ≤
        signalScore sampleClassifier.decisionSignals "decision rationale" ∧
      signalScore sampleClassifier.tacitSignals "decision rationale" ≤
        signalScore sampleClassifier.decisionSignals "decision rationale" ∧
      signalScore sampleClassifier.explicitSignals "decision rationale" ≤
        signalScore sampleClassifier.decisionSignals "decision rationale") ∧
      classify sampleClassifier "decision rationale" = KnowledgeType.decision := by
  have hd1 : countOccur "decision".data "decision rationale".data = 1 := by decide
  have hd2 : countOccur "rationale".data "decision rationale".data = 1 := by decide
  have ht : countOccur "lesson learned".data "decision rationale".data = 0 := by
    decide
  have he : countOccur "how to".data "decision rationale".data = 0 := by decide
  have hlen : ("decision rationale".data.length) = 18 := by decide
  have h1 : sampleClassifier.threshold ≤
      signalScore sampleClassifier.decisionSignals "decision rationale" := by
    simp only [signalScore, sampleClassifier, List.map_cons, List.map_nil,
      hd1, hd2, hlen]
    norm_num
  have h2 : signalScore sampleClassifier.tacitSignals "decision rationale" ≤
      signalScore sampleClassifier.decisionSignals "decision rationale" := by
    simp only [signalScore, sampleClassifier, List.map_cons, List.map_nil,
      hd1, hd2, ht, hlen]
    norm_num
  have h3 : signalScore sampleClassifier.explicitSignals "decision rationale" ≤
      signalScore sampleClassifier.decisionSignals "decision rationale" := by
    simp only [signalScore, sampleClassifier, List.map_cons, List.map_nil,
      hd1, hd2, he, hlen]
    norm_num
  exact ⟨⟨h1, h2, h3⟩,
    (classifier_total_highest_priority sampleClassifier
      "decision rationale").2.2.1 h1 h2 h3⟩

-- ==================== Decision Parser ====================

/-- Whether a line starts with the given marker, over character lists. -/
def startsWithStr (marker line : String) : Bool :=
  marker.data.isPrefixOf line.data

/-- Modelled from the spec: heading recognition of the missing backend
decision parser — the body of the first section opened by a line starting
with `heading`, up to the next heading line; `none` when no such heading
exists. -/
def sectionBody (heading : String) : List String → Option (List String)
  | [] => none
  | l :: ls =>
      if startsWithStr heading l then
        some (ls.takeWhile fun s => !(startsWithStr "#" s))
      else
        sectionBody heading ls

/-- The `- ` bullet items of an optional section body; a missing section
yields the empty list. -/
def bulletItems (body : Option (List String)) : List String :=
  (body.getD []).filterMap fun l =>
    if startsWithStr "- " l then some (l.drop 2) else none

/-- Modelled from the spec: the missing backend decision parser.  It
recognizes the headings `# ` (title), `### Author`, `### Date`,
`## Rationale`, `## Alternatives` and `## Trade-offs`; every field is
optional and a missing section leaves the field absent (or the list
empty).  The parser is a total function: it never fails, whatever the
document's structure. -/
def parseDecision (lines : List String) : DecisionTrace :=
  { decision_id := none
    title := (lines.find? fun l => startsWithStr "# " l).map fun l => l.drop 2
    author := (sectionBody "### Author" lines).bind List.head?
    date := (sectionBody "### Date" lines).bind List.head?
    rationale := (sectionBody "## Rationale" lines).map (String.intercalate " ")
    alternatives := bulletItems (sectionBody "## Alternatives" lines)
    tradeoffs := bulletItems (sectionBody "## Trade-offs" lines) }

theorem sectionBody_eq_none {heading : String} :
    ∀ lines : List String,
      (∀ l ∈ lines, startsWithStr heading l = false) →
      sectionBody heading lines = none := by
  intro lines
  induction lines with
  | nil => intro _; rfl
  | cons l ls ih =>
      intro h
      have hl : startsWithStr heading l = false := h l (List.mem_cons_self l ls)
      simp only [sectionBody, hl, Bool.false_eq_true, if_false]
      exact ih fun x hx => h x (List.mem_cons_of_mem l hx)

/-- Claim C7: the decision parser degrades gracefully on any input — whenever a
section heading is absent from the document, the corresponding field of
the returned `DecisionTrace` is absent (`none`), and a missing
Alternatives or Trade-offs section yields an empty list rather than an
error; the parser itself is a total function, so no input can make it
fail. -/
theorem decision_parser_lenient :
    ∀ lines : List String,
      ((∀ l ∈ lines, startsWithStr "## Alternatives" l = false) →
        (parseDecision lines).alternatives = []) ∧
      ((∀ l ∈ lines, startsWithStr "## Trade-offs" l = false) →
        (parseDecision lines).tradeoffs = []) ∧
      ((∀ l ∈ lines, startsWithStr "## Rationale" l = false) →
        (parseDecision lines).rationale = none) ∧
      ((∀ l ∈ lines, startsWithStr "### Author" l = false) →
        (parseDecision lines).author = none) ∧
      ((∀ l ∈ lines, startsWithStr "### Date" l = false) →
        (parseDecision lines).date = none) ∧
      ((∀ l ∈ lines, startsWithStr "# " l = false) →
        (parseDecision lines).title = none) := by
  intro lines
  refine ⟨?_, ?_, ?_, ?_, ?_, ?_⟩
  · intro h
    simp [parseDecision, bulletItems, sectionBody_eq_none lines h]
  · intro h
    simp [parseDecision, bulletItems, sectionBody_eq_none lines h]
  · intro h
    simp [parseDecision, sectionBody_eq_none lines h]
  · intro h
    simp [parseDecision, sectionBody_eq_none lines h]
  · intro h
    simp [parseDecision, sectionBody_eq_none lines h]
  · intro h
    simp only [parseDecision]
    rw [List.find?_eq_none.mpr]
    · rfl
    · intro x hx
      simp [h x hx]

/-- Witness for C7: a malformed document with no recognizable headings
parses to a trace with every optional field absent and empty lists. -/
theorem decision_parser_lenient_witness :
    (∀ l ∈ ["random text", "- stray bullet", "no headings here"],
        startsWithStr "## Alternatives" l = false) ∧
      (parseDecision
        ["random text", "- stray bullet", "no headings here"]).alternatives = [] ∧
      (parseDecision
        ["random text", "- stray bullet", "no headings here"]).rationale = none :=
  ⟨by decide,
    (decision_parser_lenient
      ["random text", "- stray bullet", "no headings here"]).1 (by decide),
    (decision_parser_lenient
      ["random text", "- stray bullet", "no headings here"]).2.2.1 (by decide)⟩

-- ==================== Suggested-Questions Generator ====================

/-- Metadata of an indexed document (documents table of the backend): id,
logical original name, knowledge type and upload timestamp. -/
structure DocumentMeta where
  id : Nat
  original_name : String
  knowledge_type : KnowledgeType
  uploaded_at : Nat
deriving DecidableEq, Repr

/-- A suggested question, from the frontend Knowledge Hub
(`SuggestedQuestion`): question, category, icon and the context naming
its originating logical source. -/
structure SuggestedQuestion where
  question : String
  category : String
  icon : String
  context : String
deriving DecidableEq, Repr

/-- Duplicate removal keeping the first occurrence of each element. -/
def dedupKeepFirst : List String → List String
  | [] => []
  | x :: xs => x :: (dedupKeepFirst xs).filter fun y => y != x

theorem mem_dedupKeepFirst {a : String} :
    ∀ l : List String, a ∈ dedupKeepFirst l ↔ a ∈ l := by
  intro l
  induction l with
  | nil => simp [dedupKeepFirst]
  | cons x xs ih =>
      simp only [dedupKeepFirst, List.mem_cons, List.mem_filter, ih,
        bne_iff_ne]
      by_cases hax : a = x
      · simp [hax]
      · simp [hax]

theorem nodup_dedupKeepFirst : ∀ l : List String, (dedupKeepFirst l).Nodup := by
  intro l
  induction l with
  | nil => simp [dedupKeepFirst]
  | cons x xs ih =>
      refine List.Nodup.cons ?_ (List.Nodup.filter _ ih)
      intro hx
      have := (List.mem_filter.mp hx).2
      simp at this

theorem dedupKeepFirst_append_not_mem {x : String} :
    ∀ l : List String, x ∉ l →
      dedupKeepFirst (l ++ [x]) = dedupKeepFirst l ++ [x] := by
  intro l
  induction l with
  | nil => intro _; rfl
  | cons y ys ih =>
      intro hx
      have hxy : x ≠ y := fun h => hx (h ▸ List.mem_cons_self y ys)
      have hxys : x ∉ ys := fun h => hx (List.mem_cons_of_mem y h)
      have hbne : (x != y) = true := bne_iff_ne.mpr hxy
      have hfil : List.filter (fun z => z != y) [x] = [x] := by
        simp [List.filter, hbne]
      rw [List.cons_append, dedupKeepFirst, dedupKeepFirst, ih hxys,
        List.filter_append, hfil, List.cons_append]

theorem dedupKeepFirst_append_mem {x : String} :
    ∀ l : List String, x ∈ l →
      dedupKeepFirst (l ++ [x]) = dedupKeepFirst l := by
  intro l
  induction l with
  | nil => intro h; cases h
  | cons y ys ih =>
      intro hx
      by_cases hmem : x ∈ ys
      · rw [List.cons_append, dedupKeepFirst, dedupKeepFirst, ih hmem]
      · have hxy : x = y := by
          rcases List.mem_cons.mp hx with h | h
          · exact h
          · exact absurd h hmem
        have hfil : List.filter (fun z => z != y) [x] = [] := by
          simp [List.filter, hxy]
        rw [List.cons_append, dedupKeepFirst, dedupKeepFirst,
          dedupKeepFirst_append_not_mem ys hmem, List.filter_append, hfil,
          List.append_nil]

/-- Modelled from the spec: the question produced for one logical source,
phrased by its knowledge type. -/
def questionFor (t : KnowledgeType) (name : String) : String :=
  match t with
  | KnowledgeType.tacit => "What lessons were learned in " ++ name ++ "?"
  | KnowledgeType.decision => "Why were the decisions in " ++ name ++ " made?"
  | KnowledgeType.explicit => "How does " ++ name ++ " work?"
  | KnowledgeType.unknown => "What is covered by " ++ name ++ "?"

/-- Question category of a knowledge type, from the Knowledge Hub
category set. -/
def categoryFor (t : KnowledgeType) : String :=
  match t with
  | KnowledgeType.tacit => "tacit"
  | KnowledgeType.decision => "decisions"
  | KnowledgeType.explicit => "technology"
  | KnowledgeType.unknown => "onboarding"

/-- Icon of a knowledge type's questions. -/
def iconFor (t : KnowledgeType) : String :=
  match t with
  | KnowledgeType.tacit => "🧠"
  | KnowledgeType.decision => "📋"
  | KnowledgeType.explicit => "📄"
  | KnowledgeType.unknown => "❓"

/-- Modelled from the spec: the suggestion generated for one logical
source name — the knowledge type of its first upload phrases the
question, and the context names the logical source. -/
def questionOf (docs : List DocumentMeta) (name : String) : SuggestedQuestion :=
  let t :=
    ((docs.find? fun d => d.original_name == name).map
      fun d => d.knowledge_type).getD KnowledgeType.unknown
  { question := questionFor t name
    category := categoryFor t
    icon := iconFor t
    context := name }

/-- Modelled from the spec: the missing backend suggested-question
generator.  Documents are grouped by their logical original name before
any question is generated (first occurrence wins). -/
def suggestQuestions (docs : List DocumentMeta) : List SuggestedQuestion :=
  (dedupKeepFirst (docs.map fun d => d.original_name)).map (questionOf docs)

theorem filter_context_map (docs : List DocumentMeta) (l : List String)
    (name : String) :
    (l.map (questionOf docs)).filter (fun q => q.context == name) =
      (l.filter fun n => n == name).map (questionOf docs) := by
  rw [List.filter_map]
  refine congrArg (List.map (questionOf docs)) ?_
  refine List.filter_congr ?_
  intro n _
  rfl

/-- Claim C8: suggested-question generation is invariant under duplicate
uploads — appending a document whose logical original name is already
indexed leaves the generated questions unchanged, and for every indexed
logical name the suggestions reference it in their context exactly once,
not twice. -/
theorem suggest_questions_dedup :
    ∀ (docs : List DocumentMeta) (d : DocumentMeta) (name : String),
      (d.original_name ∈ docs.map (fun x => x.original_name) →
        suggestQuestions (docs ++ [d]) = suggestQuestions docs) ∧
      (name ∈ docs.map (fun x => x.original_name) →
        ((suggestQuestions docs).filter
          (fun q => q.context == name)).length = 1) := by
  intro docs d name
  constructor
  · intro hmem
    simp only [suggestQuestions, List.map_append, List.map_cons, List.map_nil]
    rw [dedupKeepFirst_append_mem (docs.map fun x => x.original_name) hmem]
    refine List.map_congr_left ?_
    intro n hn
    have hn2 : n ∈ docs.map fun x => x.original_name :=
      (mem_dedupKeepFirst (docs.map fun x => x.original_name)).mp hn
    rcases List.mem_map.mp hn2 with ⟨doc, hdoc, hdocname⟩
    have hsome : (docs.find? fun x => x.original_name == n).isSome := by
      rw [List.find?_isSome]
      exact ⟨doc, hdoc, by simp [hdocname]⟩
    rcases Option.isSome_iff_exists.mp hsome with ⟨v, hv⟩
    simp only [questionOf]
    rw [List.find?_append, hv]
    rfl
  · intro hmem
    simp only [suggestQuestions]
    rw [filter_context_map, List.length_map]
    have hc : (List.filter (fun n => n == name)
        (dedupKeepFirst (docs.map fun x => x.original_name))).length =
        (dedupKeepFirst (docs.map fun x => x.original_name)).count name := by
      rw [← List.countP_eq_length_filter]
      rfl
    rw [hc]
    exact List.count_eq_one_of_mem
      (nodup_dedupKeepFirst (docs.map fun x => x.original_name))
      ((mem_dedupKeepFirst (docs.map fun x => x.original_name)).mpr hmem)

/-- Fixture: the same logical document `architecture.md` uploaded twice
with different ids and timestamps. -/
def archDoc1 : DocumentMeta :=
  { id := 1, original_name := "architecture.md"
    knowledge_type := KnowledgeType.explicit, uploaded_at := 100 }

/-- Fixture: the second upload of the same logical document. -/
def archDoc2 : DocumentMeta :=
  { id := 2, original_name := "architecture.md"
    knowledge_type := KnowledgeType.explicit, uploaded_at := 200 }

/-- Witness for C8: uploading `architecture.md` twice yields the same
suggestions as uploading it once, and its name appears in exactly one
suggestion's context. -/
theorem suggest_questions_dedup_witness :
    (archDoc2.original_name ∈ [archDoc1].map (fun x => x.original_name) ∧
        suggestQuestions ([archDoc1] ++ [archDoc2]) =
          suggestQuestions [archDoc1]) ∧
      ("architecture.md" ∈
          [archDoc1, archDoc2].map (fun x => x.original_name) ∧
        ((suggestQuestions [archDoc1, archDoc2]).filter
          (fun q => q.context == "architecture.md")).length = 1) :=
  ⟨⟨by decide,
      (suggest_questions_dedup [archDoc1] archDoc2 "architecture.md").1
        (by decide)⟩,
    ⟨by decide,
      (suggest_questions_dedup [archDoc1, archDoc2] archDoc1
        "architecture.md").2 (by decide)⟩⟩

end KnowledgeContinuity
